import Mathlib

/-!
Shallow embedding of the CSP-rs crate (a typed builder for
Content-Security-Policy header values) and verification of its
specification.

The repository holds two revisions of the crate:

* `Csp` embeds the monolithic `src/lib.rs` revision: `CSP`, `Sources`,
  `Plugins`, `ReportUris`, `SandboxAllowedList`, `SriFor`, `Source`,
  `SandboxAllow`, `Directive` and their `Display` implementations.
  Rendering of the `report-uri` and `trusted-types` directive arms slices
  `[0 .. len - 1]`, which panics on an empty vector; rendering is therefore
  modelled in `Option`, with `none` standing for a panic.

* `CspOld` embeds the split-module revision (`src/source.rs`,
  `src/plugin.rs`, `src/report_uri.rs`, `src/trusted_type.rs`,
  `src/sandbox.rs`, `src/sri.rs`, `src/directive.rs`), in which the
  `Display` implementations of `Plugins`, `ReportUris` and `TrustedTypes`
  return `Err(fmt::Error)` on an empty collection; rendering is modelled
  in `Except Unit`, with `Except.error ()` standing for `fmt::Error`.
-/

/-- The output of the write loops used throughout the crate: every element
but the last is written followed by the separator, then the last element is
written bare.  Empty input writes nothing. -/
def joinSep (sep : String) : List String → String
  | [] => ""
  | [x] => x
  | x :: y :: t => x ++ sep ++ joinSep sep (y :: t)

/-- The suffix written after the first element: separator-element pairs. -/
def tailJoin (sep : String) : List String → String
  | [] => ""
  | b :: bs => sep ++ b ++ tailJoin sep bs

theorem intercalate_go_eq (sep : String) :
    ∀ (l : List String) (acc : String),
      String.intercalate.go acc sep l = acc ++ tailJoin sep l := by
  intro l
  induction l with
  | nil => intro acc; simp [String.intercalate.go, tailJoin]
  | cons b bs ih =>
    intro acc
    rw [String.intercalate.go, ih]
    simp [tailJoin, String.append_assoc]

theorem intercalate_cons_eq (sep a : String) (as : List String) :
    String.intercalate sep (a :: as) = a ++ tailJoin sep as := by
  rw [String.intercalate, intercalate_go_eq]

theorem joinSep_cons_eq (sep a : String) (as : List String) :
    joinSep sep (a :: as) = a ++ tailJoin sep as := by
  induction as generalizing a with
  | nil => simp [joinSep, tailJoin]
  | cons b bs ih =>
    rw [joinSep, ih, tailJoin, String.append_assoc, String.append_assoc]

/-- The write loop of the crate produces exactly the separator-joined string. -/
theorem joinSep_eq_intercalate (sep : String) (l : List String) :
    joinSep sep l = String.intercalate sep l := by
  cases l with
  | nil => rfl
  | cons a as => rw [joinSep_cons_eq, intercalate_cons_eq]

namespace Csp

/-- Rust `Source` from `src/lib.rs`: a single fetch-source expression. -/
inductive Source where
  | Host (s : String)
  | Scheme (s : String)
  | Self_
  | UnsafeEval
  | WasmUnsafeEval
  | UnsafeHashes
  | UnsafeInline
  | Nonce (s : String)
  | Hash (algo digest : String)
  | StrictDynamic
  | ReportSample
deriving DecidableEq

/-- Rust `impl Display for Source` in `src/lib.rs`. -/
def Source.render : Source → String
  | .Host s => s
  | .Scheme s => s ++ ":"
  | .Self_ => "'self'"
  | .UnsafeEval => "'unsafe-eval'"
  | .WasmUnsafeEval => "'wasm-unsafe-eval'"
  | .UnsafeHashes => "'unsafe-hashes'"
  | .UnsafeInline => "'unsafe-inline'"
  | .Nonce s => "'nonce-" ++ s ++ "'"
  | .Hash algo digest => "'" ++ algo ++ "-" ++ digest ++ "'"
  | .StrictDynamic => "'strict-dynamic'"
  | .ReportSample => "'report-sample'"

/-- Rust `Sources` from `src/lib.rs`: a vector of `Source`. -/
structure Sources where
  vals : List Source
deriving DecidableEq

/-- Rust `Sources::new`. -/
def Sources.new : Sources := ⟨[]⟩

/-- Rust `Sources::new_with`. -/
def Sources.new_with (s : Source) : Sources := ⟨[s]⟩

/-- Rust `Sources::push`: appends at the end of the vector. -/
def Sources.push (ss : Sources) (s : Source) : Sources := ⟨ss.vals ++ [s]⟩

/-- Rust `Sources::push_borrowed`: same vector mutation as `push`; the state of
the borrowed receiver after the call. -/
def Sources.push_borrowed (ss : Sources) (s : Source) : Sources :=
  ⟨ss.vals ++ [s]⟩

/-- Rust `impl Display for Sources` in `src/lib.rs`: empty renders the literal
keyword, otherwise the write loop space-joins the elements. -/
def Sources.render (ss : Sources) : String :=
  if ss.vals.isEmpty then "'none'"
  else joinSep " " (ss.vals.map Source.render)

/-- Rust `Plugins` from `src/lib.rs`: a vector of (type, subtype) pairs. -/
structure Plugins where
  vals : List (String × String)
deriving DecidableEq

/-- Rust `impl Display for Plugins` in `src/lib.rs`: an empty vector writes the
empty string; otherwise the pairs render as `type/subtype`, space-joined. -/
def Plugins.render (p : Plugins) : String :=
  if p.vals.isEmpty then ""
  else joinSep " " (p.vals.map (fun q => q.1 ++ "/" ++ q.2))

/-- Rust `ReportUris` from `src/lib.rs`: a vector of URI strings. -/
structure ReportUris where
  vals : List String
deriving DecidableEq

/-- Rust `SandboxAllow` from `src/lib.rs`. -/
inductive SandboxAllow where
  | DownloadsWithoutUserActivation
  | Forms
  | Modals
  | OrientationLock
  | PointerLock
  | Popups
  | PopupsToEscapeSandbox
  | Presentation
  | SameOrigin
  | Scripts
  | StorageAccessByUserActivation
  | TopNavigation
  | TopNavigationByUserActivation
deriving DecidableEq

/-- Rust `impl Display for SandboxAllow` in `src/lib.rs`. -/
def SandboxAllow.render : SandboxAllow → String
  | .DownloadsWithoutUserActivation => "allow-downloads-without-user-activation"
  | .Forms => "allow-forms"
  | .Modals => "allow-modals"
  | .OrientationLock => "allow-orientation-lock"
  | .PointerLock => "allow-pointer-lock"
  | .Popups => "allow-popups"
  | .PopupsToEscapeSandbox => "allow-popups-to-escape-sandbox"
  | .Presentation => "allow-presentation"
  | .SameOrigin => "allow-same-origin"
  | .Scripts => "allow-scripts"
  | .StorageAccessByUserActivation => "allow-storage-access-by-user-activation"
  | .TopNavigation => "allow-top-navigation"
  | .TopNavigationByUserActivation => "allow-top-navigation-by-user-activation"

/-- Rust `SandboxAllowedList` from `src/lib.rs`. -/
structure SandboxAllowedList where
  vals : List SandboxAllow
deriving DecidableEq

/-- Rust `impl Display for SandboxAllowedList` in `src/lib.rs`: empty writes the
empty string, otherwise the write loop space-joins the tokens. -/
def SandboxAllowedList.render (l : SandboxAllowedList) : String :=
  if l.vals.isEmpty then ""
  else joinSep " " (l.vals.map SandboxAllow.render)

/-- Rust `SriFor` from `src/lib.rs`. -/
inductive SriFor where
  | Script
  | Style
  | ScriptStyle
deriving DecidableEq

/-- Rust `impl Display for SriFor` in `src/lib.rs`. -/
def SriFor.render : SriFor → String
  | .Script => "script"
  | .Style => "style"
  | .ScriptStyle => "script style"

/-- Rust `Directive` from `src/lib.rs`.  `TrustedTypes` carries a bare
`Vec<&str>` in this revision. -/
inductive Directive where
  | BaseUri (s : Sources)
  | BlockAllMixedContent
  | ChildSrc (s : Sources)
  | ConnectSrc (s : Sources)
  | DefaultSrc (s : Sources)
  | FontSrc (s : Sources)
  | FormAction (s : Sources)
  | FrameAncestors (s : Sources)
  | FrameSrc (s : Sources)
  | ImgSrc (s : Sources)
  | ManifestSrc (s : Sources)
  | MediaSrc (s : Sources)
  | NavigateTo (s : Sources)
  | ObjectSrc (s : Sources)
  | PluginTypes (p : Plugins)
  | PrefetchSrc (s : Sources)
  | ReportTo (s : String)
  | ReportUri (u : ReportUris)
  | RequireSriFor (s : SriFor)
  | Sandbox (l : SandboxAllowedList)
  | ScriptSrc (s : Sources)
  | ScriptSrcAttr (s : Sources)
  | ScriptSrcElem (s : Sources)
  | StyleSrc (s : Sources)
  | StyleSrcAttr (s : Sources)
  | StyleSrcElem (s : Sources)
  | TrustedTypes (ts : List String)
  | UpgradeInsecureRequests
  | WorkerSrc (s : Sources)
deriving DecidableEq

/-- Rust `impl Display for Directive` in `src/lib.rs`.  The `ReportUri` and
`TrustedTypes` arms slice `[0 .. len - 1]` of the underlying vector, which
panics when the vector is empty (`usize` underflow / out-of-bounds slice);
`none` models that panic.  Every other arm always produces a string. -/
def Directive.render : Directive → Option String
  | .BaseUri s => some ("base-uri " ++ s.render)
  | .BlockAllMixedContent => some "block-all-mixed-content"
  | .ChildSrc s => some ("child-src " ++ s.render)
  | .ConnectSrc s => some ("connect-src " ++ s.render)
  | .DefaultSrc s => some ("default-src " ++ s.render)
  | .FontSrc s => some ("font-src " ++ s.render)
  | .FormAction s => some ("form-action " ++ s.render)
  | .FrameAncestors s => some ("frame-ancestors " ++ s.render)
  | .FrameSrc s => some ("frame-src " ++ s.render)
  | .ImgSrc s => some ("img-src " ++ s.render)
  | .ManifestSrc s => some ("manifest-src " ++ s.render)
  | .MediaSrc s => some ("media-src " ++ s.render)
  | .NavigateTo s => some ("navigate-to " ++ s.render)
  | .ObjectSrc s => some ("object-src " ++ s.render)
  | .PluginTypes p => some ("plugin-types " ++ p.render)
  | .PrefetchSrc s => some ("prefetch-src " ++ s.render)
  | .ReportTo s => some ("report-to " ++ s)
  | .ReportUri u =>
    match u.vals with
    | [] => none
    | v :: vs => some ("report-uri " ++ joinSep " " (v :: vs))
  | .RequireSriFor s => some ("require-sri-for " ++ s.render)
  | .Sandbox l =>
    if l.vals.isEmpty then some "sandbox"
    else some ("sandbox " ++ l.render)
  | .ScriptSrc s => some ("script-src " ++ s.render)
  | .ScriptSrcAttr s => some ("script-src-attr " ++ s.render)
  | .ScriptSrcElem s => some ("script-src-elem " ++ s.render)
  | .StyleSrc s => some ("style-src " ++ s.render)
  | .StyleSrcAttr s => some ("style-src-attr " ++ s.render)
  | .StyleSrcElem s => some ("style-src-elem " ++ s.render)
  | .TrustedTypes ts =>
    match ts with
    | [] => none
    | v :: vs => some ("trusted-types " ++ joinSep " " (v :: vs))
  | .UpgradeInsecureRequests => some "upgrade-insecure-requests"
  | .WorkerSrc s => some ("worker-src " ++ s.render)

/-- Rust `CSP` from `src/lib.rs`: a vector of directives. -/
structure CSP where
  directives : List Directive
deriving DecidableEq

/-- Rust `CSP::new`. -/
def CSP.new : CSP := ⟨[]⟩

/-- Rust `CSP::new_with`. -/
def CSP.new_with (d : Directive) : CSP := ⟨[d]⟩

/-- Rust `CSP::push`: appends at the end of the vector. -/
def CSP.push (c : CSP) (d : Directive) : CSP := ⟨c.directives ++ [d]⟩

/-- Rust `CSP::push_borrowed`: same vector mutation as `push`; the state of the
borrowed receiver after the call. -/
def CSP.push_borrowed (c : CSP) (d : Directive) : CSP :=
  ⟨c.directives ++ [d]⟩

/-- The nonempty branch of `impl Display for CSP` in `src/lib.rs`: every
directive but the last is written followed by the separator, then the last
is written bare; a panic inside any directive rendering aborts the whole
rendering. -/
def renderList : List Directive → Option String
  | [] => some ""
  | [d] => d.render
  | d :: e :: t =>
    match d.render, renderList (e :: t) with
    | some s, some r => some (s ++ "; " ++ r)
    | _, _ => none

/-- Rust `impl Display for CSP` in `src/lib.rs`. -/
def CSP.render (c : CSP) : Option String :=
  if c.directives.isEmpty then some "" else renderList c.directives

end Csp

namespace CspOld

/-- Rust `Source` from `src/source.rs` (no `WasmUnsafeEval` in this revision). -/
inductive Source where
  | Host (s : String)
  | Scheme (s : String)
  | Self_
  | UnsafeEval
  | UnsafeHashes
  | UnsafeInline
  | Nonce (s : String)
  | Hash (algo digest : String)
  | StrictDynamic
  | ReportSample
deriving DecidableEq

/-- Rust `impl Display for Source` in `src/source.rs`. -/
def Source.render : Source → String
  | .Host s => s
  | .Scheme s => s ++ ":"
  | .Self_ => "'self'"
  | .UnsafeEval => "'unsafe-eval'"
  | .UnsafeHashes => "'unsafe-hashes'"
  | .UnsafeInline => "'unsafe-inline'"
  | .Nonce s => "'nonce-" ++ s ++ "'"
  | .Hash algo digest => "'" ++ algo ++ "-" ++ digest ++ "'"
  | .StrictDynamic => "'strict-dynamic'"
  | .ReportSample => "'report-sample'"

/-- Rust `Sources` from `src/source.rs`. -/
structure Sources where
  vals : List Source
deriving DecidableEq

/-- Rust `impl Display for Sources` in `src/source.rs`: fewer than one element
renders the literal keyword, otherwise the loop space-joins the elements. -/
def Sources.render (ss : Sources) : String :=
  if ss.vals.length < 1 then "'none'"
  else joinSep " " (ss.vals.map Source.render)

/-- Rust `Plugins` from `src/plugin.rs` (field `inner`). -/
structure Plugins where
  inner : List (String × String)
deriving DecidableEq

/-- Rust `impl Display for Plugins` in `src/plugin.rs`: an empty vector returns
`Err(fmt::Error)`; otherwise the pairs render as `type/subtype` and the
loop space-joins them. -/
def Plugins.render (p : Plugins) : Except Unit String :=
  if p.inner.length < 1 then Except.error ()
  else Except.ok (joinSep " " (p.inner.map (fun q => q.1 ++ "/" ++ q.2)))

/-- Rust `ReportUris` from `src/report_uri.rs` (field `inner`). -/
structure ReportUris where
  inner : List String
deriving DecidableEq

/-- Rust `impl Display for ReportUris` in `src/report_uri.rs`: an empty vector
returns `Err(fmt::Error)`; otherwise the loop space-joins the URIs. -/
def ReportUris.render (u : ReportUris) : Except Unit String :=
  if u.inner.length < 1 then Except.error ()
  else Except.ok (joinSep " " u.inner)

/-- Rust `TrustedTypes` from `src/trusted_type.rs` (field `inner`). -/
structure TrustedTypes where
  inner : List String
deriving DecidableEq

/-- Rust `impl Display for TrustedTypes` in `src/trusted_type.rs`: an empty
vector returns `Err(fmt::Error)`; otherwise the loop space-joins the
policy names. -/
def TrustedTypes.render (t : TrustedTypes) : Except Unit String :=
  if t.inner.length < 1 then Except.error ()
  else Except.ok (joinSep " " t.inner)

/-- Rust `SandboxAllow` from `src/sandbox.rs` (same tokens as `src/lib.rs`). -/
abbrev SandboxAllow := Csp.SandboxAllow

/-- Rust `SandboxAllowedList` from `src/sandbox.rs`. -/
structure SandboxAllowedList where
  vals : List SandboxAllow
deriving DecidableEq

/-- Rust `SandboxAllowedList::len`. -/
def SandboxAllowedList.len (l : SandboxAllowedList) : Nat := l.vals.length

/-- Rust `impl Display for SandboxAllowedList` in `src/sandbox.rs`. -/
def SandboxAllowedList.render (l : SandboxAllowedList) : String :=
  if l.vals.length < 1 then ""
  else joinSep " " (l.vals.map Csp.SandboxAllow.render)

/-- Rust `SriFor` from `src/sri.rs` (identical to the `src/lib.rs` revision). -/
abbrev SriFor := Csp.SriFor

/-- Rust `Directive` from `src/directive.rs`.  `TrustedTypes` carries the
`TrustedTypes` wrapper struct in this revision. -/
inductive Directive where
  | BaseUri (s : Sources)
  | BlockAllMixedContent
  | ChildSrc (s : Sources)
  | ConnectSrc (s : Sources)
  | DefaultSrc (s : Sources)
  | FontSrc (s : Sources)
  | FormAction (s : Sources)
  | FrameAncestors (s : Sources)
  | FrameSrc (s : Sources)
  | ImgSrc (s : Sources)
  | ManifestSrc (s : Sources)
  | MediaSrc (s : Sources)
  | NavigateTo (s : Sources)
  | ObjectSrc (s : Sources)
  | PluginTypes (p : Plugins)
  | PrefetchSrc (s : Sources)
  | ReportTo (s : String)
  | ReportUri (u : ReportUris)
  | RequireSriFor (s : SriFor)
  | Sandbox (l : SandboxAllowedList)
  | ScriptSrc (s : Sources)
  | ScriptSrcAttr (s : Sources)
  | ScriptSrcElem (s : Sources)
  | StyleSrc (s : Sources)
  | StyleSrcAttr (s : Sources)
  | StyleSrcElem (s : Sources)
  | TrustedTypes (ts : TrustedTypes)
  | UpgradeInsecureRequests
  | WorkerSrc (s : Sources)
deriving DecidableEq

/-- Rust `impl Display for Directive` in `src/directive.rs`.  The
`plugin-types`, `report-uri` and `trusted-types` arms format a collection
whose `Display` can return `Err(fmt::Error)`; `write!` propagates that
error, so those arms are fallible and every other arm succeeds. -/
def Directive.render : Directive → Except Unit String
  | .BaseUri s => Except.ok ("base-uri " ++ s.render)
  | .BlockAllMixedContent => Except.ok "block-all-mixed-content"
  | .ChildSrc s => Except.ok ("child-src " ++ s.render)
  | .ConnectSrc s => Except.ok ("connect-src " ++ s.render)
  | .DefaultSrc s => Except.ok ("default-src " ++ s.render)
  | .FontSrc s => Except.ok ("font-src " ++ s.render)
  | .FormAction s => Except.ok ("form-action " ++ s.render)
  | .FrameAncestors s => Except.ok ("frame-ancestors " ++ s.render)
  | .FrameSrc s => Except.ok ("frame-src " ++ s.render)
  | .ImgSrc s => Except.ok ("img-src " ++ s.render)
  | .ManifestSrc s => Except.ok ("manifest-src " ++ s.render)
  | .MediaSrc s => Except.ok ("media-src " ++ s.render)
  | .NavigateTo s => Except.ok ("navigate-to " ++ s.render)
  | .ObjectSrc s => Except.ok ("object-src " ++ s.render)
  | .PluginTypes p =>
    match p.render with
    | Except.error e => Except.error e
    | Except.ok r => Except.ok ("plugin-types " ++ r)
  | .PrefetchSrc s => Except.ok ("prefetch-src " ++ s.render)
  | .ReportTo s => Except.ok ("report-to " ++ s)
  | .ReportUri u =>
    match u.render with
    | Except.error e => Except.error e
    | Except.ok r => Except.ok ("report-uri " ++ r)
  | .RequireSriFor s => Except.ok ("require-sri-for " ++ Csp.SriFor.render s)
  | .Sandbox l =>
    match l.len with
    | 0 => Except.ok "sandbox"
    | _ + 1 => Except.ok ("sandbox " ++ l.render)
  | .ScriptSrc s => Except.ok ("script-src " ++ s.render)
  | .ScriptSrcAttr s => Except.ok ("script-src-attr " ++ s.render)
  | .ScriptSrcElem s => Except.ok ("script-src-elem " ++ s.render)
  | .StyleSrc s => Except.ok ("style-src " ++ s.render)
  | .StyleSrcAttr s => Except.ok ("style-src-attr " ++ s.render)
  | .StyleSrcElem s => Except.ok ("style-src-elem " ++ s.render)
  | .TrustedTypes ts =>
    match ts.render with
    | Except.error e => Except.error e
    | Except.ok r => Except.ok ("trusted-types " ++ r)
  | .UpgradeInsecureRequests => Except.ok "upgrade-insecure-requests"
  | .WorkerSrc s => Except.ok ("worker-src " ++ s.render)

/-- Rust `CSP` of the split-module revision: a vector of directives (declared in
the crate root of this revision, which is not under src/; `src/directive.rs`
imports it from `crate`). -/
structure CSP where
  directives : List Directive
deriving DecidableEq

/-- Modelled from the spec: the `Display` implementation of `CSP` in the
crate root of the split-module revision is not under src/.  Spec §4.4 and §7:
rendering joins the directive renderings with the two-character separator
in sequence order in a single pass, and an empty-collection error in any
the argument of any one directive aborts rendering the whole policy with that
error.  This mirrors the loop shape of the `src/lib.rs` revision (every
directive but the last followed by the separator, errors propagated). -/
def renderList : List Directive → Except Unit String
  | [] => Except.ok ""
  | [d] => d.render
  | d :: e :: t =>
    match d.render, renderList (e :: t) with
    | Except.ok s, Except.ok r => Except.ok (s ++ "; " ++ r)
    | _, _ => Except.error ()

/-- Modelled from the spec: policy rendering for the split-module revision
(see `renderList`); zero directives render as the empty string. -/
def CSP.render (c : CSP) : Except Unit String :=
  renderList c.directives

/-- A directive whose argument is one of the three required-nonempty
collection kinds, holding zero elements. -/
def Directive.emptyRequiredArg : Directive → Bool
  | .PluginTypes p => p.inner.isEmpty
  | .ReportUri u => u.inner.isEmpty
  | .TrustedTypes t => t.inner.isEmpty
  | _ => false

end CspOld

theorem Csp.renderList_map_some :
    ∀ (ds : List Csp.Directive) (rs : List String),
      ds.map Csp.Directive.render = rs.map some →
      Csp.renderList ds = some (joinSep "; " rs) := by
  intro ds
  induction ds with
  | nil =>
    intro rs h
    cases rs with
    | nil => rfl
    | cons r rt => simp at h
  | cons d t ih =>
    intro rs h
    cases rs with
    | nil => simp at h
    | cons r rt =>
      simp only [List.map_cons, List.cons.injEq] at h
      obtain ⟨hd, ht⟩ := h
      cases t with
      | nil =>
        cases rt with
        | nil => simpa [Csp.renderList, joinSep] using hd
        | cons r2 rt2 => simp at ht
      | cons e t2 =>
        cases rt with
        | nil => simp at ht
        | cons r2 rt2 =>
          rw [Csp.renderList, hd, ih (r2 :: rt2) ht]
          rfl

theorem CspOld.render_error_of_emptyArg (d : CspOld.Directive)
    (h : d.emptyRequiredArg = true) : d.render = Except.error () := by
  cases d <;> simp [CspOld.Directive.emptyRequiredArg] at h
  case PluginTypes p =>
    cases p with
    | mk inner =>
      cases inner with
      | nil => rfl
      | cons a t => simp at h
  case ReportUri u =>
    cases u with
    | mk inner =>
      cases inner with
      | nil => rfl
      | cons a t => simp at h
  case TrustedTypes ts =>
    cases ts with
    | mk inner =>
      cases inner with
      | nil => rfl
      | cons a t => simp at h

theorem CspOld.renderList_error_of_mem :
    ∀ (l : List CspOld.Directive) (d : CspOld.Directive), d ∈ l →
      d.render = Except.error () → CspOld.renderList l = Except.error () := by
  intro l
  induction l with
  | nil => intro d hmem; cases hmem
  | cons x t ih =>
    intro d hmem herr
    cases t with
    | nil =>
      cases hmem with
      | head => simpa [CspOld.renderList] using herr
      | tail _ h2 => cases h2
    | cons e t2 =>
      cases hmem with
      | head =>
        rw [CspOld.renderList, herr]
      | tail _ h2 =>
        rw [CspOld.renderList, ih d h2 herr]
        cases hx : x.render <;> rfl

/-- Every `Plugins`, `ReportUris` and `TrustedTypes` argument carried by
the directive holds at least one element (trivially true for all other
directive kinds). -/
def Csp.Directive.requiredArgsOk : Csp.Directive → Bool
  | .PluginTypes p => !p.vals.isEmpty
  | .ReportUri u => !u.vals.isEmpty
  | .TrustedTypes ts => !ts.isEmpty
  | _ => true

theorem Csp.render_isSome_of_requiredArgsOk (d : Csp.Directive)
    (h : d.requiredArgsOk = true) : d.render.isSome = true := by
  cases d <;> simp [Csp.Directive.requiredArgsOk] at h ⊢ <;>
    simp [Csp.Directive.render]
  case ReportUri u =>
    cases u with
    | mk vals =>
      cases vals with
      | nil => simp at h
      | cons a t => simp [Csp.Directive.render]
  case Sandbox l =>
    split <;> simp
  case TrustedTypes ts =>
    cases ts with
    | nil => simp at h
    | cons a t => simp [Csp.Directive.render]

theorem Csp.renderList_isSome :
    ∀ (l : List Csp.Directive),
      (∀ d ∈ l, Csp.Directive.requiredArgsOk d = true) →
      (Csp.renderList l).isSome = true := by
  intro l
  induction l with
  | nil => intro _; rfl
  | cons x t ih =>
    intro h
    cases t with
    | nil =>
      simpa [Csp.renderList] using
        Csp.render_isSome_of_requiredArgsOk x (h x (List.mem_singleton.mpr rfl))
    | cons e t2 =>
      have hx := Csp.render_isSome_of_requiredArgsOk x
        (h x (List.mem_cons_self x (e :: t2)))
      have ht : (Csp.renderList (e :: t2)).isSome = true :=
        ih (fun d hd => h d (List.mem_cons_of_mem x hd))
      rw [Csp.renderList]
      cases hx2 : x.render with
      | none => rw [hx2] at hx; simp at hx
      | some s =>
        cases ht2 : Csp.renderList (e :: t2) with
        | none => rw [ht2] at ht; simp at ht
        | some r => simp

/-- C1 counterexample: pushing a second `default-src` directive onto a policy
that already contains one does not replace it in place; the length grows from
1 to 2 and both directives appear in the rendered output, refuting the claim
at this input. -/
theorem claim1_counterexample :
    ((Csp.CSP.new.push (Csp.Directive.DefaultSrc Csp.Sources.new)).push
        (Csp.Directive.DefaultSrc
          (Csp.Sources.new_with Csp.Source.Self_))).directives.length = 2 ∧
    ((Csp.CSP.new.push (Csp.Directive.DefaultSrc Csp.Sources.new)).push
        (Csp.Directive.DefaultSrc
          (Csp.Sources.new_with Csp.Source.Self_))).render =
      some "default-src 'none'; default-src 'self'" :=
  ⟨rfl, rfl⟩

/-- C1 (amended): `CSP::push` and `CSP::push_borrowed` always append the new
directive at the end of the policy, even when a directive of the same kind is
already present; the length always grows by one and nothing is replaced in
place.  The crate has no strict/dedup mode. -/
theorem claim1_push_appends (c : Csp.CSP) (d : Csp.Directive) :
    (c.push d).directives = c.directives ++ [d] ∧
    (c.push_borrowed d).directives = c.directives ++ [d] ∧
    (c.push d).directives.length = c.directives.length + 1 :=
  ⟨rfl, rfl, by simp [Csp.CSP.push]⟩

/-- C6: rendering the `Sandbox` directive with an empty allow list yields
exactly `sandbox` with no trailing space, and with the one-element list
holding `Scripts` yields exactly `sandbox allow-scripts`; stated for both
revisions of the crate. -/
theorem claim6_sandbox_rendering :
    Csp.Directive.render (.Sandbox ⟨[]⟩) = some "sandbox" ∧
    Csp.Directive.render (.Sandbox ⟨[.Scripts]⟩) =
      some "sandbox allow-scripts" ∧
    CspOld.Directive.render (.Sandbox ⟨[]⟩) = Except.ok "sandbox" ∧
    CspOld.Directive.render (.Sandbox ⟨[.Scripts]⟩) =
      Except.ok "sandbox allow-scripts" :=
  ⟨rfl, rfl, rfl, rfl⟩

/-- C7: token rendering is a total function on `Source` and, for every
string, the special forms render as stated: a scheme is the string followed
by a colon, a nonce is quoted with the `nonce-` tag, a hash is the quoted
algorithm-digest pair, a host is the string verbatim with no quoting, and
self is the quoted keyword.  Stated for both revisions of the crate. -/
theorem claim7_token_rendering (s algo digest : String) :
    Csp.Source.render (.Scheme s) = s ++ ":" ∧
    Csp.Source.render (.Nonce s) = "'nonce-" ++ s ++ "'" ∧
    Csp.Source.render (.Hash algo digest) =
      "'" ++ algo ++ "-" ++ digest ++ "'" ∧
    Csp.Source.render (.Host s) = s ∧
    Csp.Source.render .Self_ = "'self'" ∧
    CspOld.Source.render (.Scheme s) = s ++ ":" ∧
    CspOld.Source.render (.Nonce s) = "'nonce-" ++ s ++ "'" ∧
    CspOld.Source.render (.Hash algo digest) =
      "'" ++ algo ++ "-" ++ digest ++ "'" ∧
    CspOld.Source.render (.Host s) = s ∧
    CspOld.Source.render .Self_ = "'self'" :=
  ⟨rfl, rfl, rfl, rfl, rfl, rfl, rfl, rfl, rfl, rfl⟩

/-- C10: the seeded constructors agree with empty-then-push: `CSP::new_with d`
equals `CSP::new().push(d)` (same directive sequence, hence the same
rendering), and `Sources::new_with s` equals `Sources::new().push(s)`. -/
theorem claim10_seeded_constructors (d : Csp.Directive) (s : Csp.Source) :
    Csp.CSP.new_with d = Csp.CSP.new.push d ∧
    (Csp.CSP.new_with d).render = (Csp.CSP.new.push d).render ∧
    Csp.Sources.new_with s = Csp.Sources.new.push s ∧
    (Csp.Sources.new_with s).render = (Csp.Sources.new.push s).render :=
  ⟨rfl, rfl, rfl, rfl⟩

/-- C2: rendering a `Plugins`, `ReportUris` or `TrustedTypes` collection
(split-module revision, the fail-fast behavior the spec adopts) with zero
elements returns the formatter error, surfacing the failure to the caller
instead of silently emitting an empty argument; with one or more elements it
succeeds with the element renderings space-joined in insertion order, each
plugin pair rendered as `type/subtype`. -/
theorem claim2_required_collections (p : CspOld.Plugins) (r : CspOld.ReportUris)
    (t : CspOld.TrustedTypes) :
    (p.render = if p.inner.isEmpty then Except.error ()
      else Except.ok (String.intercalate " "
        (p.inner.map (fun q => q.1 ++ "/" ++ q.2)))) ∧
    (r.render = if r.inner.isEmpty then Except.error ()
      else Except.ok (String.intercalate " " r.inner)) ∧
    (t.render = if t.inner.isEmpty then Except.error ()
      else Except.ok (String.intercalate " " t.inner)) := by
  refine ⟨?_, ?_, ?_⟩
  · obtain ⟨inner⟩ := p
    cases inner with
    | nil => rfl
    | cons a l => simp [CspOld.Plugins.render, joinSep_eq_intercalate]
  · obtain ⟨inner⟩ := r
    cases inner with
    | nil => rfl
    | cons a l => simp [CspOld.ReportUris.render, joinSep_eq_intercalate]
  · obtain ⟨inner⟩ := t
    cases inner with
    | nil => rfl
    | cons a l => simp [CspOld.TrustedTypes.render, joinSep_eq_intercalate]

/-- C3: an empty `Sources` renders exactly the quoted none keyword and a non-empty one
renders its source tokens space-joined in insertion order with no leading or
trailing space (both revisions); and every `Sources`-carrying directive
renders as its kebab-case name, one space, and exactly that argument
rendering. -/
theorem claim3_sources_rendering :
    (∀ ss : Csp.Sources, ss.render =
      if ss.vals.isEmpty then "'none'"
      else String.intercalate " " (ss.vals.map Csp.Source.render)) ∧
    (∀ ss : CspOld.Sources, ss.render =
      if ss.vals.isEmpty then "'none'"
      else String.intercalate " " (ss.vals.map CspOld.Source.render)) ∧
    (∀ ss : Csp.Sources,
      Csp.Directive.render (.BaseUri ss) = some ("base-uri " ++ ss.render) ∧
      Csp.Directive.render (.ChildSrc ss) = some ("child-src " ++ ss.render) ∧
      Csp.Directive.render (.ConnectSrc ss) =
        some ("connect-src " ++ ss.render) ∧
      Csp.Directive.render (.DefaultSrc ss) =
        some ("default-src " ++ ss.render) ∧
      Csp.Directive.render (.FontSrc ss) = some ("font-src " ++ ss.render) ∧
      Csp.Directive.render (.FormAction ss) =
        some ("form-action " ++ ss.render) ∧
      Csp.Directive.render (.FrameAncestors ss) =
        some ("frame-ancestors " ++ ss.render) ∧
      Csp.Directive.render (.FrameSrc ss) = some ("frame-src " ++ ss.render) ∧
      Csp.Directive.render (.ImgSrc ss) = some ("img-src " ++ ss.render) ∧
      Csp.Directive.render (.ManifestSrc ss) =
        some ("manifest-src " ++ ss.render) ∧
      Csp.Directive.render (.MediaSrc ss) = some ("media-src " ++ ss.render) ∧
      Csp.Directive.render (.NavigateTo ss) =
        some ("navigate-to " ++ ss.render) ∧
      Csp.Directive.render (.ObjectSrc ss) =
        some ("object-src " ++ ss.render) ∧
      Csp.Directive.render (.PrefetchSrc ss) =
        some ("prefetch-src " ++ ss.render) ∧
      Csp.Directive.render (.ScriptSrc ss) =
        some ("script-src " ++ ss.render) ∧
      Csp.Directive.render (.ScriptSrcAttr ss) =
        some ("script-src-attr " ++ ss.render) ∧
      Csp.Directive.render (.ScriptSrcElem ss) =
        some ("script-src-elem " ++ ss.render) ∧
      Csp.Directive.render (.StyleSrc ss) = some ("style-src " ++ ss.render) ∧
      Csp.Directive.render (.StyleSrcAttr ss) =
        some ("style-src-attr " ++ ss.render) ∧
      Csp.Directive.render (.StyleSrcElem ss) =
        some ("style-src-elem " ++ ss.render) ∧
      Csp.Directive.render (.WorkerSrc ss) =
        some ("worker-src " ++ ss.render)) := by
  refine ⟨?_, ?_, ?_⟩
  · intro ss
    rw [Csp.Sources.render, joinSep_eq_intercalate]
  · intro ss
    obtain ⟨vals⟩ := ss
    cases vals with
    | nil => rfl
    | cons a l => simp [CspOld.Sources.render, joinSep_eq_intercalate]
  · intro ss
    exact ⟨rfl, rfl, rfl, rfl, rfl, rfl, rfl, rfl, rfl, rfl, rfl, rfl, rfl,
      rfl, rfl, rfl, rfl, rfl, rfl, rfl, rfl⟩

/-- C4: rendering a policy with zero directives yields the empty string; and
whenever each of the n >= 1 directives renders to a string, the policy
renders to exactly those n strings joined by the two-character separator in
sequence order, with no trailing separator. -/
theorem claim4_policy_join :
    (Csp.CSP.render ⟨[]⟩ = some "") ∧
    ∀ (ds : List Csp.Directive) (rs : List String), ds ≠ [] →
      ds.map Csp.Directive.render = rs.map some →
      Csp.CSP.render ⟨ds⟩ = some (String.intercalate "; " rs) := by
  refine ⟨rfl, ?_⟩
  intro ds rs hne h
  cases ds with
  | nil => exact absurd rfl hne
  | cons d t =>
    have h2 := Csp.renderList_map_some (d :: t) rs h
    rw [joinSep_eq_intercalate] at h2
    simpa [Csp.CSP.render] using h2

/-- C4 witness: the theorem applied to the concrete two-directive policy
holding `block-all-mixed-content` and `upgrade-insecure-requests`. -/
theorem claim4_policy_join_witness :
    Csp.CSP.render ⟨[Csp.Directive.BlockAllMixedContent,
        Csp.Directive.UpgradeInsecureRequests]⟩ =
      some "block-all-mixed-content; upgrade-insecure-requests" := by
  have h := claim4_policy_join.2
    [Csp.Directive.BlockAllMixedContent, Csp.Directive.UpgradeInsecureRequests]
    ["block-all-mixed-content", "upgrade-insecure-requests"]
    (by simp) rfl
  rw [h]
  rfl

/-- C5: in the split-module revision (policy renderer modelled from the
spec), if any directive of the policy carries an empty `Plugins`,
`ReportUris` or `TrustedTypes` argument, rendering the whole policy returns
the formatter error: the failure is surfaced and no partially valid header
string is produced. -/
theorem claim5_empty_collection_aborts (c : CspOld.CSP) (d : CspOld.Directive)
    (hmem : d ∈ c.directives) (hempty : d.emptyRequiredArg = true) :
    c.render = Except.error () :=
  CspOld.renderList_error_of_mem c.directives d hmem
    (CspOld.render_error_of_emptyArg d hempty)

/-- C5 witness: the theorem applied to the concrete one-directive policy
whose `plugin-types` argument is the empty collection. -/
theorem claim5_empty_collection_aborts_witness :
    CspOld.CSP.render ⟨[CspOld.Directive.PluginTypes ⟨[]⟩]⟩ =
      Except.error () :=
  claim5_empty_collection_aborts ⟨[CspOld.Directive.PluginTypes ⟨[]⟩]⟩
    (CspOld.Directive.PluginTypes ⟨[]⟩) (List.mem_singleton.mpr rfl) rfl

/-- C8: a policy holding the single `script-src` directive with the eleven
sources pushed in the given insertion order renders to exactly the expected
header value. -/
theorem claim8_all_sources_scenario :
    (Csp.CSP.new.push (Csp.Directive.ScriptSrc
      (((((((((((Csp.Sources.new.push
        (.Hash "sha256" "1234a")).push
        (.Nonce "5678b")).push
        .ReportSample).push
        .StrictDynamic).push
        .UnsafeEval).push
        .WasmUnsafeEval).push
        .UnsafeHashes).push
        .UnsafeInline).push
        (.Scheme "data")).push
        (.Host "https://example.org")).push
        .Self_))).render =
      some "script-src 'sha256-1234a' 'nonce-5678b' 'report-sample' 'strict-dynamic' 'unsafe-eval' 'wasm-unsafe-eval' 'unsafe-hashes' 'unsafe-inline' data: https://example.org 'self'" :=
  rfl

/-- C9: for every policy whose `Plugins`, `ReportUris` and `TrustedTypes`
arguments all hold at least one element, policy rendering succeeds with some
string: caller-supplied string content is accepted verbatim and never makes
construction or rendering fail, so under this precondition the failure
branch is unreachable. -/
theorem claim9_no_failures (c : Csp.CSP)
    (h : ∀ d ∈ c.directives, Csp.Directive.requiredArgsOk d = true) :
    c.render.isSome = true := by
  obtain ⟨ds⟩ := c
  cases ds with
  | nil => rfl
  | cons x t =>
    have h2 := Csp.renderList_isSome (x :: t) h
    simpa [Csp.CSP.render] using h2

/-- C9 witness: the theorem applied to a concrete policy holding a nonempty
plugin list, a nonempty report-uri list, a nonempty trusted-types list and
an empty source list. -/
theorem claim9_no_failures_witness :
    (Csp.CSP.render ⟨[Csp.Directive.PluginTypes
        ⟨[("application", "x-java-applet")]⟩,
      Csp.Directive.ReportUri ⟨["https://r1.example.org"]⟩,
      Csp.Directive.TrustedTypes ["hello"],
      Csp.Directive.ScriptSrc ⟨[]⟩]⟩).isSome = true :=
  claim9_no_failures _ (by decide)
